import Mathlib

/-!
# Verification of the JOC taekwondo / injury-prevention analysis core

Shallow embedding of the algorithmic core of the repository:

* `src/app.py`, class `TaekwondoAnalyzer`: the debounced kick-event
  detector inside `analyze_frame` (lines 1471-1478), the technique
  rubric `calculate_score` and the grade table `get_grade`.
* `src/injury_prevention_system/acwr_calculator.py`: `calculate_acwr`,
  `get_risk_level`, `calculate_wellness_score`, `calculate_combined_risk`
  and `check_alerts`, together with the constants of
  `src/injury_prevention_system/config.py` they read.

Real numbers of the Python code are modelled as `ℚ`; Python's `round`
(banker's rounding, round-half-to-even) is modelled exactly.
-/

namespace JOC

/-! ## Python `round` (half-to-even) on rationals -/

/-- Round a rational to the nearest integer, ties to the even integer:
the behaviour of Python's builtin `round` (banker's rounding). -/
def roundHalfEven (x : ℚ) : ℤ :=
  let f : ℤ := ⌊x⌋
  let r : ℚ := x - f
  if r < 1/2 then f
  else if 1/2 < r then f + 1
  else if f % 2 = 0 then f else f + 1

/-- Python `round(x, 1)`. -/
def round1 (x : ℚ) : ℚ := (roundHalfEven (10 * x) : ℚ) / 10

/-- Python `round(x, 2)`. -/
def round2 (x : ℚ) : ℚ := (roundHalfEven (100 * x) : ℚ) / 100

theorem roundHalfEven_intCast (n : ℤ) : roundHalfEven (n : ℚ) = n := by
  unfold roundHalfEven
  have hf : ⌊(n : ℚ)⌋ = n := Int.floor_intCast n
  simp [hf]

/-- `round(x, 1)` is the identity on rationals that are integer multiples
of `1/10`. -/
theorem round1_div10 (n : ℤ) : round1 ((n : ℚ) / 10) = (n : ℚ) / 10 := by
  unfold round1
  have h : (10 : ℚ) * ((n : ℚ) / 10) = (n : ℚ) := by ring
  rw [h, roundHalfEven_intCast]

/-- `round(x, 1)` is the identity whenever `10 * x` is an integer. -/
theorem round1_eq_self (x : ℚ) (n : ℤ) (h : (10 : ℚ) * x = (n : ℚ)) :
    round1 x = x := by
  have hx : x = (n : ℚ) / 10 := by linarith
  rw [hx, round1_div10]

/-! ## Kick-event detector (`TaekwondoAnalyzer.analyze_frame`, `src/app.py`)

`analyze_frame` derives a `kick_height` for the frame and then runs

```python
if kick_height >= 25 and self.cooldown == 0:
    kick_data = metrics.copy()
    kick_data['kick_number'] = len(self.detected_kicks) + 1
    self.detected_kicks.append(kick_data)
    self.cooldown = 10

if self.cooldown > 0:
    self.cooldown -= 1
```

We embed this detection step over the stream of per-frame
`(frame_idx, kick_height)` pairs; `detected_kicks` keeps the frame index
of each emitted kick event (its `kick_number` is its 1-based position). -/

/-- Detector state of a `TaekwondoAnalyzer`: `__init__` sets
`detected_kicks = []` and `cooldown = 0`. -/
structure KickState where
  cooldown : ℕ
  detected_kicks : List ℕ
  deriving Repr, DecidableEq

/-- Fresh analyzer state (`TaekwondoAnalyzer.__init__`). -/
def initKickState : KickState := ⟨0, []⟩

/-- First `if` of the detection code: emit a kick event and set the
cooldown to 10 when `kick_height >= 25` and `cooldown == 0`. -/
def emitPhase (s : KickState) (frame_idx : ℕ) (kick_height : ℚ) : KickState :=
  if 25 ≤ kick_height ∧ s.cooldown = 0 then
    { cooldown := 10, detected_kicks := s.detected_kicks ++ [frame_idx] }
  else s

/-- Second `if` of the detection code: decrement a positive cooldown
(including one the same call just set to 10). -/
def cooldownPhase (s : KickState) : KickState :=
  if 0 < s.cooldown then { s with cooldown := s.cooldown - 1 } else s

/-- One `analyze_frame` call, restricted to the kick-detection state:
the two `if` statements run in sequence. -/
def detectStep (s : KickState) (frame_idx : ℕ) (kick_height : ℚ) : KickState :=
  cooldownPhase (emitPhase s frame_idx kick_height)

/-- Feed a stream of `(frame_idx, kick_height)` samples through the
detector. -/
def runDetect (s : KickState) (frames : List (ℕ × ℚ)) : KickState :=
  frames.foldl (fun t p => detectStep t p.1 p.2) s

theorem runDetect_nil (s : KickState) : runDetect s [] = s := rfl

theorem runDetect_cons (s : KickState) (p : ℕ × ℚ) (l : List (ℕ × ℚ)) :
    runDetect s (p :: l) = runDetect (detectStep s p.1 p.2) l := rfl

theorem runDetect_append (s : KickState) (l₁ l₂ : List (ℕ × ℚ)) :
    runDetect s (l₁ ++ l₂) = runDetect (runDetect s l₁) l₂ :=
  List.foldl_append ..

/-- The decrement phase always maps cooldown `c` to `c - 1` (truncated
subtraction: an already-armed detector stays armed). -/
theorem cooldownPhase_eq (s : KickState) :
    cooldownPhase s = ⟨s.cooldown - 1, s.detected_kicks⟩ := by
  unfold cooldownPhase
  by_cases hc : 0 < s.cooldown
  · rw [if_pos hc]
  · rw [if_neg hc]
    obtain ⟨c, k⟩ := s
    simp only [Nat.not_lt, Nat.le_zero] at hc
    simp [hc]

theorem emitPhase_low (s : KickState) (i : ℕ) (kh : ℚ) (h : kh < 25) :
    emitPhase s i kh = s := by
  unfold emitPhase
  rw [if_neg]
  rintro ⟨h25, -⟩
  exact absurd h25 (not_le.mpr h)

theorem emitPhase_armed (s : KickState) (i : ℕ) (kh : ℚ)
    (hkh : 25 ≤ kh) (hc : s.cooldown = 0) :
    emitPhase s i kh = ⟨10, s.detected_kicks ++ [i]⟩ := by
  unfold emitPhase
  rw [if_pos ⟨hkh, hc⟩]

theorem emitPhase_cooling (s : KickState) (i : ℕ) (kh : ℚ)
    (hc : s.cooldown ≠ 0) :
    emitPhase s i kh = s := by
  unfold emitPhase
  rw [if_neg]
  rintro ⟨-, h0⟩
  exact hc h0

/-- A frame below the 25-threshold never emits and just decrements the
cooldown. -/
theorem detectStep_low (s : KickState) (i : ℕ) (kh : ℚ) (h : kh < 25) :
    detectStep s i kh = ⟨s.cooldown - 1, s.detected_kicks⟩ := by
  unfold detectStep
  rw [emitPhase_low s i kh h, cooldownPhase_eq]

/-- An at-or-above-threshold frame hitting an armed detector emits one
event; the cooldown is set to 10 and then immediately decremented to 9
by the same call. -/
theorem detectStep_armed (s : KickState) (i : ℕ) (kh : ℚ)
    (hkh : 25 ≤ kh) (hc : s.cooldown = 0) :
    detectStep s i kh = ⟨9, s.detected_kicks ++ [i]⟩ := by
  unfold detectStep
  rw [emitPhase_armed s i kh hkh hc, cooldownPhase_eq]
  rfl

/-- A frame hitting a cooling detector never emits, whatever its
`kick_height`; the cooldown just decrements. -/
theorem detectStep_cooling (s : KickState) (i : ℕ) (kh : ℚ) (c : ℕ)
    (hc : s.cooldown = c + 1) :
    detectStep s i kh = ⟨c, s.detected_kicks⟩ := by
  unfold detectStep
  rw [emitPhase_cooling s i kh (by omega), cooldownPhase_eq, hc]
  rfl

/-- Any call that does not satisfy the emission condition just
decrements the cooldown and leaves `detected_kicks` alone. -/
theorem detectStep_noemit (s : KickState) (i : ℕ) (kh : ℚ)
    (h : ¬(25 ≤ kh ∧ s.cooldown = 0)) :
    detectStep s i kh = ⟨s.cooldown - 1, s.detected_kicks⟩ := by
  unfold detectStep emitPhase
  rw [if_neg h, cooldownPhase_eq]

/-- Running a stream of sub-threshold frames emits nothing and drains the
cooldown by the stream length. -/
theorem runDetect_low (l : List (ℕ × ℚ)) (s : KickState)
    (h : ∀ p ∈ l, p.2 < 25) :
    runDetect s l = ⟨s.cooldown - l.length, s.detected_kicks⟩ := by
  induction l generalizing s with
  | nil => simp [runDetect_nil]
  | cons p l ih =>
    rw [runDetect_cons, detectStep_low _ _ _ (h p (List.mem_cons_self ..)),
      ih _ (fun q hq => h q (List.mem_cons_of_mem _ hq))]
    simp only [List.length_cons]
    congr 1
    omega

/-- Number of kick events a run of `n` consecutive at-or-above-threshold
frames emits, starting from cooldown `c`. -/
def highCount : ℕ → ℕ → ℕ
  | _, 0 => 0
  | 0, n + 1 => highCount 9 n + 1
  | c + 1, n + 1 => highCount c n

/-- Cooldown left after a run of `n` consecutive at-or-above-threshold
frames, starting from cooldown `c`. -/
def highCooldown : ℕ → ℕ → ℕ
  | c, 0 => c
  | 0, n + 1 => highCooldown 9 n
  | c + 1, n + 1 => highCooldown c n

/-- Running a stream of at-or-above-threshold frames: the number of
emitted events and the final cooldown depend only on the stream length
and the starting cooldown, through `highCount` / `highCooldown`. -/
theorem runDetect_high (l : List (ℕ × ℚ)) (s : KickState)
    (h : ∀ p ∈ l, 25 ≤ p.2) :
    (runDetect s l).detected_kicks.length
        = s.detected_kicks.length + highCount s.cooldown l.length
      ∧ (runDetect s l).cooldown = highCooldown s.cooldown l.length := by
  induction l generalizing s with
  | nil => simp [runDetect_nil, highCount, highCooldown]
  | cons p l ih =>
    have hp : 25 ≤ p.2 := h p (List.mem_cons_self ..)
    have hl : ∀ q ∈ l, 25 ≤ q.2 := fun q hq => h q (List.mem_cons_of_mem _ hq)
    rw [runDetect_cons]
    rcases hc : s.cooldown with _ | c
    · -- armed: emit, cooldown 10 then decremented to 9
      rw [detectStep_armed s p.1 p.2 hp hc]
      obtain ⟨h1, h2⟩ := ih ⟨9, s.detected_kicks ++ [p.1]⟩ hl
      refine ⟨?_, ?_⟩
      · rw [h1]
        simp [highCount]
        omega
      · rw [h2]
        simp [highCooldown]
    · -- cooling: no emission, decrement
      rw [detectStep_cooling s p.1 p.2 c hc]
      obtain ⟨h1, h2⟩ := ih ⟨c, s.detected_kicks⟩ hl
      refine ⟨?_, ?_⟩
      · rw [h1]
        simp [highCount]
      · rw [h2]
        simp [highCooldown]

/-! ## Technique scorer (`TaekwondoAnalyzer.calculate_score` /
`TaekwondoAnalyzer.get_grade`, `src/app.py`)

`calculate_score` reads the five numeric fields of a metrics record and
returns a clamped total plus qualitative feedback strings. -/

/-- The numeric fields of a metrics record that `calculate_score` and
the kick detector read (`metrics` dict built by `analyze_frame`). -/
structure FrameMetrics where
  knee_angle : ℚ
  kick_height : ℚ
  hip_flexion : ℚ
  support_knee : ℚ
  visibility : ℚ
  deriving Repr, DecidableEq

/-- `TaekwondoAnalyzer.calculate_score`: five weighted bands, total
clamped to 100, each band contributing one feedback string. -/
def calculate_score (m : FrameMetrics) : ℤ × List (String × String) :=
  -- Knee angle (25 pts)
  let kneeBand : ℤ × (String × String) :=
    if 160 ≤ m.knee_angle then (25, ("Full leg extension - maximum power", "success"))
    else if 140 ≤ m.knee_angle then (20, ("Good extension - aim for full lock", "info"))
    else if 120 ≤ m.knee_angle then (15, ("Moderate extension - extend further", "warning"))
    else (10, ("Bent knee - focus on extension", "warning"))
  -- Height (30 pts)
  let heightBand : ℤ × (String × String) :=
    if 70 ≤ m.kick_height then (30, ("Head level - competition standard", "success"))
    else if 50 ≤ m.kick_height then (22, ("Chest level - good target area", "info"))
    else if 30 ≤ m.kick_height then (15, ("Body level - increase flexibility", "warning"))
    else (8, ("Low kick - work on hip mobility", "warning"))
  -- Hip flexion (20 pts)
  let hipBand : ℤ × (String × String) :=
    if 110 ≤ m.hip_flexion then (20, ("Excellent hip chamber", "success"))
    else if 90 ≤ m.hip_flexion then (15, ("Good chamber position", "info"))
    else (10, ("Improve knee chamber", "warning"))
  -- Support leg (15 pts)
  let supportBand : ℤ × (String × String) :=
    if 160 ≤ m.support_knee ∧ m.support_knee ≤ 180 then
      (15, ("Stable base - excellent balance", "success"))
    else if 140 ≤ m.support_knee then (10, ("Good stability", "info"))
    else (5, ("Straighten support leg", "warning"))
  -- Visibility bonus (10 pts)
  let visPts : ℤ :=
    if 80 ≤ m.visibility then 10
    else if 60 ≤ m.visibility then 7
    else 4
  let score := kneeBand.1 + heightBand.1 + hipBand.1 + supportBand.1 + visPts
  (min 100 score, [kneeBand.2, heightBand.2, hipBand.2, supportBand.2])

/-- `TaekwondoAnalyzer.get_grade`: fixed descending threshold table. -/
def get_grade (score : ℤ) : String × String × String :=
  if 90 ≤ score then ("A+", "Elite", "#4ade80")
  else if 85 ≤ score then ("A", "Excellent", "#4ade80")
  else if 80 ≤ score then ("A-", "Very Good", "#4ade80")
  else if 75 ≤ score then ("B+", "Good", "#60a5fa")
  else if 70 ≤ score then ("B", "Above Average", "#60a5fa")
  else if 65 ≤ score then ("B-", "Fair", "#fbbf24")
  else if 60 ≤ score then ("C+", "Average", "#fbbf24")
  else if 55 ≤ score then ("C", "Below Average", "#f97316")
  else ("D", "Needs Work", "#ef4444")

/-! ## ACWR calculator (`src/injury_prevention_system/acwr_calculator.py`)

Dates are modelled as integers (days); pandas timestamp comparison on
day-resolution data reduces to integer comparison. Training loads are
rationals. -/

/-- `ACUTE_PERIOD_DAYS` (config.py). -/
def ACUTE_PERIOD_DAYS : ℤ := 7

/-- `CHRONIC_PERIOD_DAYS` (config.py). -/
def CHRONIC_PERIOD_DAYS : ℤ := 28

/-- One row of the training-data frame: a date and its `training_load`. -/
structure TrainingRow where
  date : ℤ
  training_load : ℚ
  deriving Repr, DecidableEq

/-- `acute_data['training_load'].sum()`: total load in the window
`acute_start < date <= calculation_date`. -/
def acuteLoad (data : List TrainingRow) (calculation_date : ℤ) : ℚ :=
  ((data.filter (fun r =>
    decide (calculation_date - ACUTE_PERIOD_DAYS < r.date ∧
      r.date ≤ calculation_date))).map (fun r => r.training_load)).sum

/-- `chronic_data['training_load'].sum()`: total load in the window
`chronic_start < date <= calculation_date`. -/
def chronicLoad (data : List TrainingRow) (calculation_date : ℤ) : ℚ :=
  ((data.filter (fun r =>
    decide (calculation_date - CHRONIC_PERIOD_DAYS < r.date ∧
      r.date ≤ calculation_date))).map (fun r => r.training_load)).sum

/-- `calculate_acwr`: acute and chronic window averages, zero-chronic
fallbacks 1.0 / 2.0, otherwise the rounded ratio. -/
def calculate_acwr (data : List TrainingRow) (calculation_date : ℤ) : ℚ :=
  let acute_avg := acuteLoad data calculation_date / ACUTE_PERIOD_DAYS
  let chronic_avg := chronicLoad data calculation_date / CHRONIC_PERIOD_DAYS
  if chronic_avg = 0 then
    if acute_avg = 0 then 1 else 2
  else round2 (acute_avg / chronic_avg)

/-- `RISK_ZONES` (config.py): name, `min`, `max` of each zone, in the
dict's insertion order. -/
def RISK_ZONES : List (String × ℚ × ℚ) :=
  [("undertrained", 0, 0.8),
   ("optimal", 0.8, 1.3),
   ("high_risk", 1.3, 1.5),
   ("danger", 1.5, 2.0),
   ("critical", 2.0, 999)]

/-- The loop of `get_risk_level`: return the name of the first zone with
`min <= acwr < max`. -/
def findZone (acwr : ℚ) : List (String × ℚ × ℚ) → Option String
  | [] => none
  | z :: rest => if z.2.1 ≤ acwr ∧ acwr < z.2.2 then some z.1 else findZone acwr rest

/-- `get_risk_level`, reduced to the zone name it reports: first matching
zone of `RISK_ZONES`, defaulting to `"critical"` outside all zones. -/
def get_risk_level (acwr : ℚ) : String :=
  (findZone acwr RISK_ZONES).getD "critical"

/-- All zones of `RISK_ZONES` whose half-open interval contains `acwr`
(used to state disjointness/totality of the classification). -/
def zonesContaining (acwr : ℚ) : List (String × ℚ × ℚ) → List String
  | [] => []
  | z :: rest =>
    if z.2.1 ≤ acwr ∧ acwr < z.2.2 then z.1 :: zonesContaining acwr rest
    else zonesContaining acwr rest

/-! ## Wellness score (`calculate_wellness_score`) -/

/-- `calculate_wellness_score`: weighted sum of the six normalized 1-10
inputs (weights from `WELLNESS_WEIGHTS` in config.py: sleep .25,
fatigue .20, soreness .20, stress .15, mood .10, motivation .10),
scaled `* 10` and rounded to one decimal. -/
def calculate_wellness_score (sleep_quality fatigue muscle_soreness stress mood motivation : ℤ) : ℚ :=
  let score : ℚ :=
    (sleep_quality : ℚ) * 0.25
    + ((11 - fatigue : ℤ) : ℚ) * 0.20
    + ((11 - muscle_soreness : ℤ) : ℚ) * 0.20
    + ((11 - stress : ℤ) : ℚ) * 0.15
    + (mood : ℚ) * 0.10
    + (motivation : ℚ) * 0.10
  round1 (score * 10)

/-! ## Combined risk (`calculate_combined_risk`) -/

/-- The `acwr_risk` band mapping inside `calculate_combined_risk`
(an `elif` chain with inclusive upper bounds). -/
def acwr_risk (acwr : ℚ) : ℚ :=
  if acwr < 0.8 then 30
  else if acwr ≤ 1.3 then 10
  else if acwr ≤ 1.5 then 50
  else if acwr ≤ 2.0 then 75
  else 95

/-- `calculate_combined_risk`, reduced to its numeric fields:
`(combined_risk, acwr_risk, wellness_risk)` as returned in the result
dict (`combined_risk` and `wellness_risk` rounded to one decimal). -/
def calculate_combined_risk (acwr wellness_score : ℚ) : ℚ × ℚ × ℚ :=
  let wellness_risk : ℚ := 100 - wellness_score
  let combined_risk : ℚ := acwr_risk acwr * 0.6 + wellness_risk * 0.4
  (round1 combined_risk, acwr_risk acwr, round1 wellness_risk)

/-! ## Alert engine (`check_alerts`) -/

/-- `ALERT_THRESHOLDS` (config.py). -/
structure AlertThresholds where
  acwr_warning : ℚ
  acwr_danger : ℚ
  wellness_warning : ℚ
  consecutive_high_load_days : ℕ
  deriving Repr, DecidableEq

def ALERT_THRESHOLDS : AlertThresholds :=
  { acwr_warning := 1.3
    acwr_danger := 1.5
    wellness_warning := 5.0
    consecutive_high_load_days := 3 }

/-- The four alert branches of `check_alerts`, identified by which
`alerts.append` produced them. -/
inductive AlertKind where
  | acwr_critical
  | acwr_danger
  | acwr_caution
  | low_wellness
  deriving Repr, DecidableEq

/-- The `'type'` field of each alert dict. -/
def AlertKind.typeField : AlertKind → String
  | .acwr_critical => "critical"
  | .acwr_danger => "warning"
  | .acwr_caution => "caution"
  | .low_wellness => "warning"

/-- Whether an alert came from the ACWR `if/elif` chain (as opposed to
the independent wellness check). -/
def AlertKind.isAcwr : AlertKind → Bool
  | .acwr_critical | .acwr_danger | .acwr_caution => true
  | .low_wellness => false

/-- `check_alerts`, reduced to the list of emitted alert branches:
one `if/elif/elif` chain on `acwr`, then an independent `if` on
`wellness_score`. -/
def check_alerts (acwr wellness_score : ℚ) : List AlertKind :=
  (if 2.0 ≤ acwr then [.acwr_critical]
   else if ALERT_THRESHOLDS.acwr_danger ≤ acwr then [.acwr_danger]
   else if ALERT_THRESHOLDS.acwr_warning ≤ acwr then [.acwr_caution]
   else [])
  ++ (if wellness_score < ALERT_THRESHOLDS.wellness_warning then [.low_wellness] else [])

/-! ## Claim theorems -/

/-- C7: for the metrics record with `knee_angle = 170`,
`kick_height = 80`, `hip_flexion = 115`, `support_knee = 170` and
`visibility = 90`, `calculate_score` returns the total
`25 + 30 + 20 + 15 + 10 = 100` and `get_grade` maps that score to
grade `"A+"`. -/
theorem C7_perfect_score_grade :
    (calculate_score ⟨170, 80, 115, 170, 90⟩).1 = 25 + 30 + 20 + 15 + 10
      ∧ (calculate_score ⟨170, 80, 115, 170, 90⟩).1 = 100
      ∧ (get_grade (calculate_score ⟨170, 80, 115, 170, 90⟩).1).1 = "A+" := by
  refine ⟨by decide, by decide, by decide⟩

/-- C2 (code-bug evidence): `check_alerts` compares the 0-100 wellness
score against the configured threshold `5.0` without the `x10` scaling
the claim describes. At `acwr = 1.0`, `wellness_score = 30` the score is
below 50, yet no alert at all is emitted. -/
theorem C2_wellness_alert_threshold_unscaled :
    check_alerts 1 30 = [] ∧ (30 : ℚ) < 50
      ∧ ALERT_THRESHOLDS.wellness_warning = 5 := by
  refine ⟨?_, by norm_num, by norm_num [ALERT_THRESHOLDS]⟩
  norm_num [check_alerts, ALERT_THRESHOLDS]

/-- C10: `check_alerts` emits at most one ACWR-based alert per call
(the `if/elif` chain is mutually exclusive, with `acwr >= 2.0` yielding
only the critical alert), so a single call returns at most two alerts in
total. -/
theorem C10_check_alerts_at_most_two (a w : ℚ) :
    ((check_alerts a w).filter (fun k => k.isAcwr)).length ≤ 1
      ∧ (2 ≤ a → (check_alerts a w).filter (fun k => k.isAcwr) = [.acwr_critical])
      ∧ (check_alerts a w).length ≤ 2 := by
  unfold check_alerts ALERT_THRESHOLDS
  split_ifs with h1 h2 h3 h4 h5 h6 h7 <;>
    refine ⟨by simp [AlertKind.isAcwr], fun h => ?_, by simp⟩ <;>
    first
      | (simp [AlertKind.isAcwr]; done)
      | (norm_num at h1; linarith)

/-- Witness for C10 at the concrete call `check_alerts 2 4`. -/
theorem C10_check_alerts_at_most_two_witness :
    ((check_alerts 2 4).filter (fun k => k.isAcwr)).length ≤ 1
      ∧ (2 ≤ (2 : ℚ) → (check_alerts 2 4).filter (fun k => k.isAcwr) = [.acwr_critical])
      ∧ (check_alerts 2 4).length ≤ 2 :=
  C10_check_alerts_at_most_two 2 4

/-- C4: whenever the trailing 28-day load sum is zero, `calculate_acwr`
returns the documented fallback constants instead of failing: `1.0` if
the trailing 7-day sum is also zero, `2.0` if it is positive. -/
theorem C4_acwr_zero_chronic_fallbacks (data : List TrainingRow) (d : ℤ) :
    (chronicLoad data d = 0 → acuteLoad data d = 0 → calculate_acwr data d = 1)
      ∧ (chronicLoad data d = 0 → 0 < acuteLoad data d → calculate_acwr data d = 2) := by
  constructor
  · intro hc ha
    simp only [calculate_acwr, hc, ha, ACUTE_PERIOD_DAYS, CHRONIC_PERIOD_DAYS]
    norm_num
  · intro hc ha
    simp only [calculate_acwr, hc, ACUTE_PERIOD_DAYS, CHRONIC_PERIOD_DAYS]
    rw [if_pos (by norm_num), if_neg (by positivity)]

/-- Witness for C4: the empty series gives `1.0`; a series whose 28-day
window sums to zero while its 7-day window sums to `5` gives `2.0`. -/
theorem C4_acwr_zero_chronic_fallbacks_witness :
    calculate_acwr [] 0 = 1
      ∧ calculate_acwr [⟨-10, -5⟩, ⟨-1, 5⟩] 0 = 2 :=
  ⟨(C4_acwr_zero_chronic_fallbacks [] 0).1
      (by norm_num [chronicLoad]) (by norm_num [acuteLoad]),
    (C4_acwr_zero_chronic_fallbacks [⟨-10, -5⟩, ⟨-1, 5⟩] 0).2
      (by norm_num [chronicLoad, CHRONIC_PERIOD_DAYS, List.filter])
      (by norm_num [acuteLoad, ACUTE_PERIOD_DAYS, List.filter])⟩

/-- The ACWR band mapping as claim C3 words it: closed-open zones
`[0,0.8) -> 30`, `[0.8,1.3) -> 10`, `[1.3,1.5) -> 50`, `[1.5,2.0) -> 75`,
`[2.0,oo) -> 95`. Written from the claim, to be compared with the code's
`acwr_risk`. -/
def claimAcwrRisk (a : ℚ) : ℚ :=
  if 0 ≤ a ∧ a < 0.8 then 30
  else if 0.8 ≤ a ∧ a < 1.3 then 10
  else if 1.3 ≤ a ∧ a < 1.5 then 50
  else if 1.5 ≤ a ∧ a < 2.0 then 75
  else 95

/-- The ACWR band mapping the code actually implements, written with
explicit interval-membership conditions: the upper bounds `1.3`, `1.5`
and `2.0` are inclusive. -/
def amendedAcwrRisk (a : ℚ) : ℚ :=
  if 0 ≤ a ∧ a < 0.8 then 30
  else if 0.8 ≤ a ∧ a ≤ 1.3 then 10
  else if 1.3 < a ∧ a ≤ 1.5 then 50
  else if 1.5 < a ∧ a ≤ 2.0 then 75
  else 95

/-- C3 (counterexample): at `acwr = 1.3`, `wellness = 100` the code
returns `combined_risk = 6.0` (`acwr_risk = 10`, optimal: the code's
upper bound `<= 1.3` is inclusive) while the claim's closed-open zones
put 1.3 in the elevated band (`r = 50`) and predict `30.0`. -/
theorem C3_combined_risk_counterexample :
    (calculate_combined_risk 1.3 100).1 = 6
      ∧ 0.6 * claimAcwrRisk 1.3 + 0.4 * (100 - 100) = 30
      ∧ (calculate_combined_risk 1.3 100).1
          ≠ 0.6 * claimAcwrRisk 1.3 + 0.4 * (100 - 100) := by
  have h1 : (calculate_combined_risk 1.3 100).1 = 6 := by
    norm_num [calculate_combined_risk, acwr_risk]
    exact round1_eq_self 6 60 (by norm_num)
  have h2 : 0.6 * claimAcwrRisk 1.3 + 0.4 * ((100 : ℚ) - 100) = 30 := by
    norm_num [claimAcwrRisk]
  refine ⟨h1, h2, ?_⟩
  rw [h1, h2]
  norm_num

/-- C3 (amended): for every `a >= 0` and every wellness score `w`, the
`combined_risk` field equals `round(0.6 * r + 0.4 * (100 - w), 1)` where
`r` is 30/10/50/75/95 on `[0,0.8)`, `[0.8,1.3]`, `(1.3,1.5]`, `(1.5,2.0]`,
`(2.0,oo)`: inclusive upper bounds and one-decimal rounding. -/
theorem C3_combined_risk_formula (a w : ℚ) (h : 0 ≤ a) :
    (calculate_combined_risk a w).1
      = round1 (0.6 * amendedAcwrRisk a + 0.4 * (100 - w)) := by
  have hr : acwr_risk a = amendedAcwrRisk a := by
    unfold acwr_risk amendedAcwrRisk
    rcases lt_or_le a 0.8 with h1 | h1
    · rw [if_pos h1, if_pos ⟨h, h1⟩]
    · have n1 : ¬(0 ≤ a ∧ a < 0.8) := by rintro ⟨-, hx⟩; exact absurd hx (not_lt.mpr h1)
      rw [if_neg (not_lt.mpr h1), if_neg n1]
      rcases le_or_lt a 1.3 with h2 | h2
      · rw [if_pos h2, if_pos ⟨h1, h2⟩]
      · have n2 : ¬(0.8 ≤ a ∧ a ≤ 1.3) := by rintro ⟨-, hx⟩; exact absurd hx (not_le.mpr h2)
        rw [if_neg (not_le.mpr h2), if_neg n2]
        rcases le_or_lt a 1.5 with h3 | h3
        · rw [if_pos h3, if_pos ⟨h2, h3⟩]
        · have n3 : ¬(1.3 < a ∧ a ≤ 1.5) := by rintro ⟨-, hx⟩; exact absurd hx (not_le.mpr h3)
          rw [if_neg (not_le.mpr h3), if_neg n3]
          rcases le_or_lt a 2.0 with h4 | h4
          · rw [if_pos h4, if_pos ⟨h3, h4⟩]
          · have n4 : ¬(1.5 < a ∧ a ≤ 2.0) := by rintro ⟨-, hx⟩; exact absurd hx (not_le.mpr h4)
            rw [if_neg (not_le.mpr h4), if_neg n4]
  simp only [calculate_combined_risk, hr]
  congr 1
  ring

/-- Witness for C3 (amended) at `a = 1.3`, `w = 100`. -/
theorem C3_combined_risk_formula_witness :
    (calculate_combined_risk 1.3 100).1
      = round1 (0.6 * amendedAcwrRisk 1.3 + 0.4 * (100 - 100)) :=
  C3_combined_risk_formula 1.3 100 (by norm_num)

/-- Closed form of `calculate_wellness_score` for integer inputs: the
weighted, `x10`-scaled sum is exactly an integer over 10, so the final
`round(. , 1)` is the identity. -/
theorem calculate_wellness_score_closed (s f so st m mo : ℤ) :
    calculate_wellness_score s f so st m mo
      = ((25 * s + 20 * (11 - f) + 20 * (11 - so) + 15 * (11 - st)
          + 10 * m + 10 * mo : ℤ) : ℚ) / 10 := by
  simp only [calculate_wellness_score]
  rw [round1_eq_self _
    (25 * s + 20 * (11 - f) + 20 * (11 - so) + 15 * (11 - st) + 10 * m + 10 * mo)
    (by push_cast; ring)]
  push_cast
  ring

/-- C9: over the valid input cube `1..10` for all six wellness inputs,
`calculate_wellness_score` stays in `[10, 100]`, and the minimum 10 is
attained (at the worst valid inputs), so the advertised 0-100 range is
never reached at its lower end. -/
theorem C9_wellness_score_range (s f so st m mo : ℤ)
    (hs : 1 ≤ s) (hs' : s ≤ 10) (hf : 1 ≤ f) (hf' : f ≤ 10)
    (hso : 1 ≤ so) (hso' : so ≤ 10) (hst : 1 ≤ st) (hst' : st ≤ 10)
    (hm : 1 ≤ m) (hm' : m ≤ 10) (hmo : 1 ≤ mo) (hmo' : mo ≤ 10) :
    10 ≤ calculate_wellness_score s f so st m mo
      ∧ calculate_wellness_score s f so st m mo ≤ 100
      ∧ calculate_wellness_score 1 10 10 10 1 1 = 10 := by
  rw [calculate_wellness_score_closed]
  refine ⟨?_, ?_, ?_⟩
  · rw [le_div_iff (by norm_num : (0 : ℚ) < 10)]
    have hn : (100 : ℤ)
        ≤ 25 * s + 20 * (11 - f) + 20 * (11 - so) + 15 * (11 - st) + 10 * m + 10 * mo := by
      linarith
    have hq : ((100 : ℤ) : ℚ) ≤ ((25 * s + 20 * (11 - f) + 20 * (11 - so)
        + 15 * (11 - st) + 10 * m + 10 * mo : ℤ) : ℚ) := by
      exact_mod_cast hn
    push_cast at hq ⊢
    linarith
  · rw [div_le_iff (by norm_num : (0 : ℚ) < 10)]
    have hn : 25 * s + 20 * (11 - f) + 20 * (11 - so) + 15 * (11 - st) + 10 * m + 10 * mo
        ≤ (1000 : ℤ) := by
      linarith
    have hq : ((25 * s + 20 * (11 - f) + 20 * (11 - so)
        + 15 * (11 - st) + 10 * m + 10 * mo : ℤ) : ℚ) ≤ ((1000 : ℤ) : ℚ) := by
      exact_mod_cast hn
    push_cast at hq ⊢
    linarith
  · rw [calculate_wellness_score_closed]
    norm_num

/-- Witness for C9 at the all-middling input `(5,5,5,5,5,5)`. -/
theorem C9_wellness_score_range_witness :
    10 ≤ calculate_wellness_score 5 5 5 5 5 5
      ∧ calculate_wellness_score 5 5 5 5 5 5 ≤ 100
      ∧ calculate_wellness_score 1 10 10 10 1 1 = 10 :=
  C9_wellness_score_range 5 5 5 5 5 5
    (by decide) (by decide) (by decide) (by decide) (by decide) (by decide)
    (by decide) (by decide) (by decide) (by decide) (by decide) (by decide)

/-- C8: on the valid input cube `1..10`, `calculate_wellness_score` is
monotone: raising `sleep_quality` never lowers the score, raising
`fatigue` never raises it (the other five inputs held fixed). -/
theorem C8_wellness_score_monotone (s s' f f' so st m mo : ℤ)
    (hs : 1 ≤ s) (hs' : s' ≤ 10) (hf : 1 ≤ f) (hf' : f' ≤ 10)
    (hso : 1 ≤ so) (hso' : so ≤ 10) (hst : 1 ≤ st) (hst' : st ≤ 10)
    (hm : 1 ≤ m) (hm' : m ≤ 10) (hmo : 1 ≤ mo) (hmo' : mo ≤ 10) :
    (s ≤ s' →
      calculate_wellness_score s f so st m mo
        ≤ calculate_wellness_score s' f so st m mo)
      ∧ (f ≤ f' →
        calculate_wellness_score s f' so st m mo
          ≤ calculate_wellness_score s f so st m mo) := by
  constructor
  · intro h
    simp only [calculate_wellness_score_closed]
    have hn : 25 * s + 20 * (11 - f) + 20 * (11 - so) + 15 * (11 - st) + 10 * m + 10 * mo
        ≤ 25 * s' + 20 * (11 - f) + 20 * (11 - so) + 15 * (11 - st) + 10 * m + 10 * mo := by
      linarith
    exact (div_le_div_right (by norm_num : (0 : ℚ) < 10)).mpr (Int.cast_le.mpr hn)
  · intro h
    simp only [calculate_wellness_score_closed]
    have hn : 25 * s + 20 * (11 - f') + 20 * (11 - so) + 15 * (11 - st) + 10 * m + 10 * mo
        ≤ 25 * s + 20 * (11 - f) + 20 * (11 - so) + 15 * (11 - st) + 10 * m + 10 * mo := by
      linarith
    exact (div_le_div_right (by norm_num : (0 : ℚ) < 10)).mpr (Int.cast_le.mpr hn)

/-- Witness for C8: raising sleep 3 to 7 and fatigue 2 to 9 at otherwise
fixed inputs. -/
theorem C8_wellness_score_monotone_witness :
    ((3 : ℤ) ≤ 7 →
      calculate_wellness_score 3 2 4 5 6 7 ≤ calculate_wellness_score 7 2 4 5 6 7)
      ∧ ((2 : ℤ) ≤ 9 →
        calculate_wellness_score 3 9 4 5 6 7 ≤ calculate_wellness_score 3 2 4 5 6 7) :=
  C8_wellness_score_monotone 3 7 2 9 4 5 6 7
    (by decide) (by decide) (by decide) (by decide) (by decide) (by decide)
    (by decide) (by decide) (by decide) (by decide) (by decide) (by decide)

/-- C6: for every `a >= 0`, exactly one configured zone of `RISK_ZONES`
contains `a`, and `get_risk_level` reports it; values outside every
configured interval (only `a >= 999`) fall back to `"critical"`. -/
theorem C6_risk_zone_partition (a : ℚ) (h : 0 ≤ a) :
    (∃ n, zonesContaining a RISK_ZONES = [n] ∧ get_risk_level a = n)
      ∨ (zonesContaining a RISK_ZONES = [] ∧ 999 ≤ a ∧ get_risk_level a = "critical") := by
  simp only [get_risk_level, RISK_ZONES, zonesContaining, findZone]
  rcases lt_or_le a 0.8 with h1 | h1
  · have c1 : (0 : ℚ) ≤ a ∧ a < 0.8 := ⟨h, h1⟩
    have n2 : ¬((0.8 : ℚ) ≤ a ∧ a < 1.3) := by rintro ⟨hx, -⟩; linarith
    have n3 : ¬((1.3 : ℚ) ≤ a ∧ a < 1.5) := by rintro ⟨hx, -⟩; linarith
    have n4 : ¬((1.5 : ℚ) ≤ a ∧ a < 2.0) := by rintro ⟨hx, -⟩; linarith
    have n5 : ¬((2.0 : ℚ) ≤ a ∧ a < 999) := by rintro ⟨hx, -⟩; linarith
    rw [if_pos c1, if_neg n2, if_neg n3, if_neg n4, if_neg n5]
    rw [if_pos c1]
    exact Or.inl ⟨"undertrained", rfl, rfl⟩
  · rcases lt_or_le a 1.3 with h2 | h2
    · have n1 : ¬((0 : ℚ) ≤ a ∧ a < 0.8) := by rintro ⟨-, hx⟩; linarith
      have c2 : (0.8 : ℚ) ≤ a ∧ a < 1.3 := ⟨h1, h2⟩
      have n3 : ¬((1.3 : ℚ) ≤ a ∧ a < 1.5) := by rintro ⟨hx, -⟩; linarith
      have n4 : ¬((1.5 : ℚ) ≤ a ∧ a < 2.0) := by rintro ⟨hx, -⟩; linarith
      have n5 : ¬((2.0 : ℚ) ≤ a ∧ a < 999) := by rintro ⟨hx, -⟩; linarith
      rw [if_neg n1, if_pos c2, if_neg n3, if_neg n4, if_neg n5]
      rw [if_neg n1, if_pos c2]
      exact Or.inl ⟨"optimal", rfl, rfl⟩
    · rcases lt_or_le a 1.5 with h3 | h3
      · have n1 : ¬((0 : ℚ) ≤ a ∧ a < 0.8) := by rintro ⟨-, hx⟩; linarith
        have n2 : ¬((0.8 : ℚ) ≤ a ∧ a < 1.3) := by rintro ⟨-, hx⟩; linarith
        have c3 : (1.3 : ℚ) ≤ a ∧ a < 1.5 := ⟨h2, h3⟩
        have n4 : ¬((1.5 : ℚ) ≤ a ∧ a < 2.0) := by rintro ⟨hx, -⟩; linarith
        have n5 : ¬((2.0 : ℚ) ≤ a ∧ a < 999) := by rintro ⟨hx, -⟩; linarith
        rw [if_neg n1, if_neg n2, if_pos c3, if_neg n4, if_neg n5]
        rw [if_neg n1, if_neg n2, if_pos c3]
        exact Or.inl ⟨"high_risk", rfl, rfl⟩
      · rcases lt_or_le a 2.0 with h4 | h4
        · have n1 : ¬((0 : ℚ) ≤ a ∧ a < 0.8) := by rintro ⟨-, hx⟩; linarith
          have n2 : ¬((0.8 : ℚ) ≤ a ∧ a < 1.3) := by rintro ⟨-, hx⟩; linarith
          have n3 : ¬((1.3 : ℚ) ≤ a ∧ a < 1.5) := by rintro ⟨-, hx⟩; linarith
          have c4 : (1.5 : ℚ) ≤ a ∧ a < 2.0 := ⟨h3, h4⟩
          have n5 : ¬((2.0 : ℚ) ≤ a ∧ a < 999) := by rintro ⟨hx, -⟩; linarith
          rw [if_neg n1, if_neg n2, if_neg n3, if_pos c4, if_neg n5]
          rw [if_neg n1, if_neg n2, if_neg n3, if_pos c4]
          exact Or.inl ⟨"danger", rfl, rfl⟩
        · rcases lt_or_le a 999 with h5 | h5
          · have n1 : ¬((0 : ℚ) ≤ a ∧ a < 0.8) := by rintro ⟨-, hx⟩; linarith
            have n2 : ¬((0.8 : ℚ) ≤ a ∧ a < 1.3) := by rintro ⟨-, hx⟩; linarith
            have n3 : ¬((1.3 : ℚ) ≤ a ∧ a < 1.5) := by rintro ⟨-, hx⟩; linarith
            have n4 : ¬((1.5 : ℚ) ≤ a ∧ a < 2.0) := by rintro ⟨-, hx⟩; linarith
            have c5 : (2.0 : ℚ) ≤ a ∧ a < 999 := ⟨h4, h5⟩
            rw [if_neg n1, if_neg n2, if_neg n3, if_neg n4, if_pos c5]
            rw [if_neg n1, if_neg n2, if_neg n3, if_neg n4, if_pos c5]
            exact Or.inl ⟨"critical", rfl, rfl⟩
          · have n1 : ¬((0 : ℚ) ≤ a ∧ a < 0.8) := by rintro ⟨-, hx⟩; linarith
            have n2 : ¬((0.8 : ℚ) ≤ a ∧ a < 1.3) := by rintro ⟨-, hx⟩; linarith
            have n3 : ¬((1.3 : ℚ) ≤ a ∧ a < 1.5) := by rintro ⟨-, hx⟩; linarith
            have n4 : ¬((1.5 : ℚ) ≤ a ∧ a < 2.0) := by rintro ⟨-, hx⟩; linarith
            have n5 : ¬((2.0 : ℚ) ≤ a ∧ a < 999) := by rintro ⟨-, hx⟩; linarith
            rw [if_neg n1, if_neg n2, if_neg n3, if_neg n4, if_neg n5]
            rw [if_neg n1, if_neg n2, if_neg n3, if_neg n4, if_neg n5]
            exact Or.inr ⟨rfl, h5, rfl⟩

/-- Witness for C6 at `a = 1`: the optimal zone. -/
theorem C6_risk_zone_partition_witness :
    (∃ n, zonesContaining 1 RISK_ZONES = [n] ∧ get_risk_level 1 = n)
      ∨ (zonesContaining 1 RISK_ZONES = [] ∧ (999 : ℚ) ≤ 1 ∧ get_risk_level 1 = "critical") :=
  C6_risk_zone_partition 1 (by norm_num)

/-- C1 (counterexample): a fresh analyzer fed 15 consecutive frames
with `kick_height = 30` (at-or-above the 25 threshold everywhere, no
other frames) records TWO kick events - at the 1st and 11th spike frames
- not exactly one as claimed: the cooldown set to 10 on emission is
already decremented in the same call, so it re-arms on the 11th frame. -/
theorem C1_fifteen_frame_spike_counterexample :
    ((List.range 15).map (fun i => (i, (30 : ℚ)))).length = 15
      ∧ (∀ p ∈ (List.range 15).map (fun i => (i, (30 : ℚ))), 25 ≤ p.2)
      ∧ (runDetect initKickState
          ((List.range 15).map (fun i => (i, (30 : ℚ))))).detected_kicks = [0, 10]
      ∧ (runDetect initKickState
          ((List.range 15).map (fun i => (i, (30 : ℚ))))).detected_kicks.length ≠ 1 := by
  refine ⟨by decide, by decide, by decide, by decide⟩

/-- C1 (amended): for every stream consisting of a single sustained
spike of 15 consecutive frames with `kick_height >= 25`, with every
other frame below 25, a fresh analyzer appends exactly TWO kick events
to `detected_kicks` (the 10-frame cooldown re-arms once inside a
15-frame spike). -/
theorem C1_sustained_spike_two_events (pre spike post : List (ℕ × ℚ))
    (hpre : ∀ p ∈ pre, p.2 < 25)
    (hspike : ∀ p ∈ spike, 25 ≤ p.2)
    (hlen : spike.length = 15)
    (hpost : ∀ p ∈ post, p.2 < 25) :
    (runDetect initKickState (pre ++ spike ++ post)).detected_kicks.length = 2 := by
  rw [runDetect_append, runDetect_append]
  rw [runDetect_low pre initKickState hpre]
  have hinit : (⟨initKickState.cooldown - pre.length,
      initKickState.detected_kicks⟩ : KickState) = ⟨0, []⟩ := by
    simp [initKickState]
  rw [hinit]
  obtain ⟨hk, -⟩ := runDetect_high spike (⟨0, []⟩ : KickState) hspike
  rw [runDetect_low post _ hpost]
  show (runDetect ⟨0, []⟩ spike).detected_kicks.length = 2
  rw [hk, hlen]
  decide

/-- Witness for C1 (amended): empty prefix, the 15-frame spike at
height 30, one sub-threshold closing frame. -/
theorem C1_sustained_spike_two_events_witness :
    (runDetect initKickState
      (([] : List (ℕ × ℚ)) ++ (List.range 15).map (fun i => (i, (30 : ℚ)))
        ++ [(15, 0)])).detected_kicks.length = 2 :=
  C1_sustained_spike_two_events [] ((List.range 15).map (fun i => (i, (30 : ℚ)))) [(15, 0)]
    (by decide) (by decide) (by decide) (by decide)

/-- Debounce invariant: starting from any state whose last emitted
event index `e` satisfies `e + 10 <= b + cooldown` for a lower bound `b`
on all upcoming frame indices, the event list stays 10-spaced. -/
theorem runDetect_spaced_aux (frames : List (ℕ × ℚ)) (s : KickState) (b : ℕ)
    (hb : ∀ p ∈ frames, b ≤ p.1)
    (hinc : List.Pairwise (fun p q => p.1 < q.1) frames)
    (hsp : List.Chain' (fun e e' => e + 10 ≤ e') s.detected_kicks)
    (hlast : ∀ e ∈ s.detected_kicks.getLast?, e + 10 ≤ b + s.cooldown) :
    List.Chain' (fun e e' => e + 10 ≤ e') (runDetect s frames).detected_kicks := by
  induction frames generalizing s b with
  | nil => exact hsp
  | cons p l ih =>
    have hbp : b ≤ p.1 := hb p (List.mem_cons_self ..)
    obtain ⟨hpl, hl⟩ := List.pairwise_cons.mp hinc
    rw [runDetect_cons]
    by_cases hkick : 25 ≤ p.2 ∧ s.cooldown = 0
    · rw [detectStep_armed s p.1 p.2 hkick.1 hkick.2]
      refine ih (⟨9, s.detected_kicks ++ [p.1]⟩ : KickState) (p.1 + 1)
        (fun q hq => hpl q hq) hl ?_ ?_
      · rw [List.chain'_append]
        refine ⟨hsp, List.chain'_singleton _, ?_⟩
        intro x hx y hy
        simp only [List.head?_cons, Option.mem_some_iff] at hy
        subst hy
        have hx10 := hlast x hx
        omega
      · intro e he
        rw [List.getLast?_concat] at he
        simp only [Option.mem_some_iff] at he
        subst he
        show p.1 + 10 ≤ p.1 + 1 + 9
        omega
    · rw [detectStep_noemit s p.1 p.2 hkick]
      refine ih (⟨s.cooldown - 1, s.detected_kicks⟩ : KickState) (p.1 + 1)
        (fun q hq => hpl q hq) hl hsp ?_
      intro e he
      have h10 := hlast e he
      show e + 10 ≤ p.1 + 1 + (s.cooldown - 1)
      rcases Nat.eq_zero_or_pos s.cooldown with hc | hc
      · rw [hc] at h10
        omega
      · omega

/-- C5: for every stream of frame metrics with strictly increasing frame
indices fed to a fresh analyzer, consecutive recorded kick events are at
least 10 frames apart: the full 10-frame cooldown elapses between any
two emissions. -/
theorem C5_kick_events_ten_frames_apart (frames : List (ℕ × ℚ))
    (hinc : List.Pairwise (fun p q => p.1 < q.1) frames) :
    List.Chain' (fun e e' => e + 10 ≤ e')
      (runDetect initKickState frames).detected_kicks :=
  runDetect_spaced_aux frames initKickState 0 (fun p _ => Nat.zero_le p.1) hinc
    List.chain'_nil (fun e he => by simp [initKickState] at he)

/-- Witness for C5 on a 15-frame consecutive-index stream (which records
events at frames 0 and 10). -/
theorem C5_kick_events_ten_frames_apart_witness :
    List.Chain' (fun e e' => e + 10 ≤ e')
      (runDetect initKickState
        ((List.range 15).map (fun i => (i, (30 : ℚ))))).detected_kicks :=
  C5_kick_events_ten_frames_apart ((List.range 15).map (fun i => (i, (30 : ℚ))))
    (by decide)

end JOC
